import Mathlib

/-!
# Procurement invoice workflow — shallow embedding

This file embeds the invoice-lifecycle logic of the procurement system:

* the Node/Express API gateway (routes `POST /api/invoices`,
  `POST /api/invoices/:id/submit`, `POST /api/payments/process`), and
* the Spring payment service (`PaymentController.validatePayment`,
  `PaymentController.processPayment`, `PaymentRepository.findByInvoiceId`,
  `PaymentRepository.save`).

Database rows are modelled as Lean structures, the shared PostgreSQL store
as lists of rows inside `SysState`.  Statuses are kept as plain strings,
exactly as they are stored in the `status` text columns.  Monetary amounts
are `ℚ` (the Java side uses `BigDecimal`, i.e. exact decimal arithmetic).
Nondeterministic inputs of the code — the random settlement outcome, the
random budget draw, the clock, generated numbers, and whether a remote
authority call succeeds or errors/times out — are passed as explicit
parameters.  Redis cache invalidation is a delete of one fixed key and is
not represented in the state.
-/

/-- A row of the `invoices` table.  `submittedAt`, `approvedAt`, `updatedAt`
are the nullable timestamp columns; timestamps are abstract `Nat` ticks. -/
structure Invoice where
  id : Nat
  invoiceNumber : String
  vendorId : Nat
  amount : ℚ
  description : String
  dueDate : Option Nat
  status : String
  submittedAt : Option Nat
  approvedAt : Option Nat
  updatedAt : Option Nat
deriving DecidableEq

/-- A row of the `payments` table, as mapped by `paymentRowMapper`. -/
structure Payment where
  id : Nat
  paymentNumber : String
  invoiceId : Nat
  amount : ℚ
  paymentMethod : String
  status : String
  processedAt : Option Nat
  confirmationNumber : Option String
  createdAt : Nat
deriving DecidableEq

/-- An entry of the `issues` array built by `validatePayment`
(`createIssue(type, message)`); `type` is `"error"` or `"warning"`. -/
structure Issue where
  type : String
  message : String
deriving DecidableEq

/-- The response body of `POST /api/payments/validate`
(`PaymentController.validatePayment`). -/
structure ValidationResult where
  valid : Bool
  invoiceId : Nat
  amount : ℚ
  validations : List (String × Bool)
  issues : List Issue
deriving DecidableEq

/-- What the gateway stores as `documentValidation` during submission:
either the Document Authority response body, or the fallback object
built in the `catch` branch (`valid: true` plus a warning string). -/
structure DocVal where
  valid : Bool
  warning : Option String
deriving DecidableEq

/-- What the gateway stores as `paymentValidation` during submission:
the Payment Authority response body when the call succeeds, or —
when the call errors or times out — the fallback object
`valid: true, warning: 'Payment service unavailable'`. -/
inductive PayRecord where
  | fromService (r : ValidationResult)
  | unavailable
deriving DecidableEq

/-- The `valid` field of the recorded `paymentValidation` object:
the service's flag, or `true` for the fallback object. -/
def PayRecord.validFlag : PayRecord → Bool
  | .fromService r => r.valid
  | .unavailable => true

/-- The `warning` field of the recorded `paymentValidation` object. -/
def PayRecord.warningField : PayRecord → Option String
  | .fromService _ => none
  | .unavailable => some "Payment service unavailable"

/-- The JSON `details` blob of an `audit_logs` row, by the three writers:
invoice creation, invoice submission (recording both validation outcomes),
and payment processing (`PaymentController` always interpolates the
generated confirmation string, even for a failed settlement). -/
inductive AuditDetails where
  | invoiceCreated (invoiceNumber : String)
  | invoiceSubmitted (documentValidation : DocVal) (paymentValidation : PayRecord)
  | paymentProcessed (invoiceNumber : String) (amount : ℚ) (status : String)
      (confirmation : String)
deriving DecidableEq

/-- A row of the `audit_logs` table. -/
structure AuditEntry where
  entityType : String
  entityId : Nat
  action : String
  details : AuditDetails
deriving DecidableEq

/-- The shared PostgreSQL state seen by the gateway and the payment
service.  Vendors are kept as their ids (only existence is consulted,
through the `invoices.vendor_id` foreign key).  `payments` is held
newest-first: `PaymentRepository.save` prepends, and `createdAt` of a
saved row is the current clock tick. -/
structure SysState where
  vendors : List Nat
  invoices : List Invoice
  payments : List Payment
  audit : List AuditEntry
deriving DecidableEq

/-- The empty database. -/
def initState : SysState := { vendors := [], invoices := [], payments := [], audit := [] }

/-- `SELECT * FROM invoices WHERE id = $1` (first matching row). -/
def findInvoice (st : SysState) (invoiceId : Nat) : Option Invoice :=
  st.invoices.find? (fun i => i.id == invoiceId)

/-- Of two payments, the one with the later `created_at` (the earlier
argument wins ties, matching an unspecified SQL tie order). -/
def moreRecent (a b : Payment) : Payment :=
  if a.createdAt < b.createdAt then b else a

/-- `PaymentRepository.findByInvoiceId`:
`SELECT * FROM payments WHERE invoice_id = ? ORDER BY created_at DESC LIMIT 1`,
i.e. the most recent payment row for the invoice, if any. -/
def findByInvoiceId (ps : List Payment) (invoiceId : Nat) : Option Payment :=
  (ps.filter (fun p => p.invoiceId == invoiceId)).foldl
    (fun acc p =>
      match acc with
      | none => some p
      | some q => some (moreRecent q p)) none

/-- `PaymentController.validatePayment`.  `budgetRandom` is the
`random.nextBoolean()` draw of the simulated budget-compliance check. -/
def validatePayment (ps : List Payment) (invoiceId : Nat) (amount : ℚ)
    (budgetRandom : Bool) : ValidationResult :=
  let amountValid := decide (0 < amount) && decide (amount ≤ 1000000)
  let issues1 : List Issue :=
    if amountValid then [] else [⟨"error", "Amount must be between $0 and $1,000,000"⟩]
  let noDuplicate :=
    match findByInvoiceId ps invoiceId with
    | none => true
    | some p => !(p.status == "completed")
  let issues2 := issues1 ++
    (if noDuplicate then [] else [⟨"error", "Invoice has already been paid"⟩])
  let budgetCompliant := decide (amount ≤ 500000) || budgetRandom
  let issues3 := issues2 ++
    (if budgetCompliant then []
     else [⟨"warning", "Amount exceeds $500,000 - requires additional approval"⟩])
  let isValid := issues3.all (fun i => !(i.type == "error"))
  { valid := isValid
    invoiceId := invoiceId
    amount := amount
    validations :=
      [("amount_range", amountValid), ("no_duplicate", noDuplicate),
       ("budget_compliance", budgetCompliant)]
    issues := issues3 }

/-- The response body of `POST /api/payments/process`
(`PaymentController.processPayment`). -/
structure ProcessResponse where
  success : Bool
  paymentId : Nat
  paymentNumber : String
  invoiceId : Nat
  amount : ℚ
  status : String
  confirmationNumber : Option String
  error : Option String
deriving DecidableEq

/-- `PaymentController.processPayment`.  `success` is the random
settlement draw (`random.nextInt(100) < 95`); `paymentNumber` and
`confirmationNumber` are the generated reference strings; `now` is the
clock.  A payment row is always saved — status `completed` or `failed` —
and an audit entry is appended; the generated row id stands in for the
serial primary key. -/
def processPayment (st : SysState) (invoiceId : Nat) (amount : ℚ)
    (invoiceNumber : String) (success : Bool)
    (paymentNumber confirmationNumber : String) (now : Nat) :
    ProcessResponse × SysState :=
  let status := if success then "completed" else "failed"
  let payment : Payment :=
    { id := st.payments.length
      paymentNumber := paymentNumber
      invoiceId := invoiceId
      amount := amount
      paymentMethod := "ACH"
      status := status
      processedAt := some now
      confirmationNumber := if success then some confirmationNumber else none
      createdAt := now }
  let response : ProcessResponse :=
    { success := success
      paymentId := payment.id
      paymentNumber := paymentNumber
      invoiceId := invoiceId
      amount := amount
      status := status
      confirmationNumber := if success then some confirmationNumber else none
      error := if success then none else some "Payment processing failed - please retry" }
  (response,
   { st with
      payments := payment :: st.payments
      audit := st.audit ++
        [⟨"payment", payment.id, "processed",
          .paymentProcessed invoiceNumber amount status confirmationNumber⟩] })

/-- `String(millis).slice(-6)`: the last six characters of the decimal
representation (the whole string when shorter). -/
def lastSixDigits (millis : Nat) : String :=
  let s := toString millis
  s.drop (s.length - 6)

/-- The invoice number generated by `POST /api/invoices`. -/
def mkInvoiceNumber (year millis : Nat) : String :=
  "INV-" ++ toString year ++ "-" ++ lastSixDigits millis

/-- Outcome of `POST /api/invoices`: the created row with HTTP 201, or an
HTTP 500 carrying the store's error (the route has no validation of its
own; the only way it rejects is a database error). -/
inductive CreateResult where
  | created (inv : Invoice)
  | storeError
deriving DecidableEq

/-- `POST /api/invoices`.  The route performs no input validation: it
inserts the row, logs an audit entry, and returns 201.  Modelled from the
spec: the database schema (not under the sources here) gives `invoices`
a status default of `draft` and a foreign key `vendor_id → vendors`, so
an insert referencing a missing vendor fails at the store and surfaces
as a 500 error with no row written. -/
def apiCreateInvoice (st : SysState) (vendorId : Nat) (amount : ℚ)
    (description : String) (dueDate : Option Nat) (year millis newId : Nat) :
    CreateResult × SysState :=
  if st.vendors.contains vendorId then
    let inv : Invoice :=
      { id := newId
        invoiceNumber := mkInvoiceNumber year millis
        vendorId := vendorId
        amount := amount
        description := description
        dueDate := dueDate
        status := "draft"
        submittedAt := none
        approvedAt := none
        updatedAt := none }
    (.created inv,
     { st with
        invoices := st.invoices ++ [inv]
        audit := st.audit ++
          [⟨"invoice", newId, "created", .invoiceCreated inv.invoiceNumber⟩] })
  else
    (.storeError, st)

/-- Response body of `POST /api/invoices/:id/submit` (the route always
sets `success: true` when it reaches the response). -/
structure SubmitResponse where
  success : Bool
  invoiceId : Nat
  documentValidation : DocVal
  paymentValidation : PayRecord
deriving DecidableEq

/-- Outcome of `POST /api/invoices/:id/submit`. -/
inductive SubmitResult where
  | ok (r : SubmitResponse)
  | notFound
deriving DecidableEq

/-- The `documentValidation` value recorded by the submit route:
the Document Authority response when the call succeeds (`docCall =
some v`), or the fallback built in the `catch` branch. -/
def recordedDocVal (docCall : Option DocVal) : DocVal :=
  docCall.getD ⟨true, some "Document service unavailable"⟩

/-- The `paymentValidation` value recorded by the submit route: when the
payment-service call returns, its body is `validatePayment` on the
current payments; when it errors or times out, the `catch` fallback. -/
def recordedPayVal (payments : List Payment) (invoiceId : Nat) (amount : ℚ)
    (payReachable budgetRandom : Bool) : PayRecord :=
  if payReachable then
    .fromService (validatePayment payments invoiceId amount budgetRandom)
  else .unavailable

/-- The column updates of
`UPDATE invoices SET status = 'submitted', submitted_at = NOW(), updated_at = NOW()`. -/
def submitStamp (now : Nat) (i : Invoice) : Invoice :=
  { i with status := "submitted", submittedAt := some now, updatedAt := some now }

/-- The column updates of
`UPDATE invoices SET status = 'approved', approved_at = NOW()`
(this statement does not touch `updated_at`). -/
def approveStamp (now : Nat) (i : Invoice) : Invoice :=
  { i with status := "approved", approvedAt := some now }

/-- `POST /api/invoices/:id/submit`.  Looks up the invoice (404 when
missing), calls the Document Authority (`docCall`, `none` when the call
errors or times out) and the payment service (`payReachable` tells
whether that call returns; when it does, its body is exactly
`validatePayment` on the current payments with the invoice's amount),
then unconditionally updates the invoice to `submitted`, stamping
`submitted_at` and `updated_at`, and appends one audit entry recording
both validation outcomes.  There is no check of the current status. -/
def apiSubmitInvoice (st : SysState) (invoiceId : Nat)
    (docCall : Option DocVal) (payReachable budgetRandom : Bool) (now : Nat) :
    SubmitResult × SysState :=
  match findInvoice st invoiceId with
  | none => (.notFound, st)
  | some inv =>
    let documentValidation := recordedDocVal docCall
    let paymentValidation :=
      recordedPayVal st.payments invoiceId inv.amount payReachable budgetRandom
    let invoices := st.invoices.map (fun i =>
      if i.id == invoiceId then submitStamp now i else i)
    (.ok { success := true
           invoiceId := invoiceId
           documentValidation := documentValidation
           paymentValidation := paymentValidation },
     { st with
        invoices := invoices
        audit := st.audit ++
          [⟨"invoice", invoiceId, "submitted",
            .invoiceSubmitted documentValidation paymentValidation⟩] })

/-- Outcome of the gateway route `POST /api/payments/process`:
the payment service's body relayed with HTTP 200, a 404 for a missing
invoice, or a 500 when the service call throws (transport failure). -/
inductive ProcessResult where
  | ok (r : ProcessResponse)
  | notFound
  | serviceError
deriving DecidableEq

/-- Gateway route `POST /api/payments/process`.  Loads the invoice (404
when missing) and calls the payment service; `reachable` tells whether
that HTTP call returns a response (the service answers 200 even for a
failed settlement, so `axios` only throws on transport failure).  When a
response comes back — whatever its `success` flag — the route updates
the invoice to `approved`, stamping `approved_at`, and relays the body.
On transport failure nothing is written and a 500 is returned. -/
def apiPaymentsProcess (st : SysState) (invoiceId : Nat)
    (reachable success : Bool) (paymentNumber confirmationNumber : String)
    (now : Nat) : ProcessResult × SysState :=
  match findInvoice st invoiceId with
  | none => (.notFound, st)
  | some inv =>
    if reachable then
      let rs := processPayment st invoiceId inv.amount inv.invoiceNumber
        success paymentNumber confirmationNumber now
      let invoices := rs.2.invoices.map (fun i =>
        if i.id == invoiceId then approveStamp now i else i)
      (.ok rs.1, { rs.2 with invoices := invoices })
    else
      (.serviceError, st)

/-- `POST /api/vendors`: inserts a vendor row (only its id matters for
the lifecycle; the route has no validation). -/
def apiCreateVendor (st : SysState) (vendorId : Nat) : SysState :=
  { st with vendors := st.vendors ++ [vendorId] }

/-- One externally triggered lifecycle operation, with all of the code's
nondeterministic inputs (clock ticks, random draws, generated strings,
authority reachability) made explicit. -/
inductive Op where
  | newVendor (vendorId : Nat)
  | create (vendorId : Nat) (amount : ℚ) (description : String)
      (dueDate : Option Nat) (year millis newId : Nat)
  | submit (invoiceId : Nat) (docCall : Option DocVal)
      (payReachable budgetRandom : Bool) (now : Nat)
  | processPay (invoiceId : Nat) (reachable success : Bool)
      (paymentNumber confirmationNumber : String) (now : Nat)
deriving DecidableEq

/-- The state transformer of one operation. -/
def applyOp (st : SysState) : Op → SysState
  | .newVendor v => apiCreateVendor st v
  | .create v a d dd y m n => (apiCreateInvoice st v a d dd y m n).2
  | .submit i dc pr br now => (apiSubmitInvoice st i dc pr br now).2
  | .processPay i r s pn cn now => (apiPaymentsProcess st i r s pn cn now).2

/-- Run a sequence of operations from the empty database. -/
def runOps (ops : List Op) : SysState :=
  ops.foldl applyOp initState

/-- Fixture: an invoice row for vendor 1 over 100 currency units, in a
given lifecycle status, used by the concrete counterexamples and
witnesses below. -/
def exInvoice (status : String) : Invoice :=
  { id := 1
    invoiceNumber := "INV-2026-000001"
    vendorId := 1
    amount := 100
    description := "printer paper"
    dueDate := none
    status := status
    submittedAt := none
    approvedAt := none
    updatedAt := none }

/-- Fixture: a completed payment row for invoice 1, created at tick 3. -/
def exCompletedPayment : Payment :=
  { id := 0
    paymentNumber := "PAY-20260101-AAAA1111"
    invoiceId := 1
    amount := 100
    paymentMethod := "ACH"
    status := "completed"
    processedAt := some 3
    confirmationNumber := some "CONF-111122223333"
    createdAt := 3 }

/-- Fixture: a failed payment row for invoice 1, created later, at tick 5. -/
def exFailedPayment : Payment :=
  { id := 1
    paymentNumber := "PAY-20260102-BBBB2222"
    invoiceId := 1
    amount := 100
    paymentMethod := "ACH"
    status := "failed"
    processedAt := some 5
    confirmationNumber := none
    createdAt := 5 }

/-- Fixture: a one-vendor database holding `exInvoice status` and a given
payments table. -/
def exState (status : String) (ps : List Payment) : SysState :=
  { vendors := [1], invoices := [exInvoice status], payments := ps, audit := [] }

/-!
## Helper lemmas
-/

/-- Updating, in place, exactly the rows matched by an id predicate does
not change which row a `find?` on that predicate returns — it returns
the updated row — provided the update preserves the id. -/
lemma find?_map_update (l : List Invoice) (invoiceId : Nat) (f : Invoice → Invoice)
    (hf : ∀ i, (f i).id = i.id) (a : Invoice)
    (h : l.find? (fun i => i.id == invoiceId) = some a) :
    (l.map fun i => if i.id == invoiceId then f i else i).find?
        (fun i => i.id == invoiceId) = some (f a) := by
  induction l with
  | nil => simp at h
  | cons x xs ih =>
    rw [List.find?_cons] at h
    by_cases hx : (x.id == invoiceId) = true
    · simp only [hx] at h
      have hfx : ((f x).id == invoiceId) = true := by rw [hf x]; exact hx
      simp only [Option.some.injEq] at h
      subst h
      simp only [List.map_cons, if_pos hx, List.find?_cons, hfx]
    · have hx2 : (x.id == invoiceId) = false := by simpa using hx
      simp only [hx2] at h
      simp only [List.map_cons, hx2, Bool.false_eq_true, if_false, List.find?_cons]
      exact ih h

/-- Folding the most-recent accumulator over payments that are all older
than `n` leaves `n` selected. -/
lemma foldl_moreRecent_const (l : List Payment) (n : Payment)
    (h : ∀ q ∈ l, q.createdAt < n.createdAt) :
    l.foldl
      (fun acc p =>
        match acc with
        | none => some p
        | some q => some (moreRecent q p)) (some n) = some n := by
  induction l with
  | nil => rfl
  | cons q qs ih =>
    have hq : q.createdAt < n.createdAt := h q (List.mem_cons_self q qs)
    have hnq : moreRecent n q = n := by
      unfold moreRecent
      rw [if_neg (Nat.not_lt.mpr (Nat.le_of_lt hq))]
    simp only [List.foldl_cons, hnq]
    exact ih (fun r hr => h r (List.mem_cons_of_mem q hr))

/-- When the head of the payments list belongs to the invoice and is
strictly newer than every other payment of that invoice,
`findByInvoiceId` returns the head. -/
lemma findByInvoiceId_cons_newest (n : Payment) (rest : List Payment)
    (invoiceId : Nat) (hn : n.invoiceId = invoiceId)
    (hrest : ∀ q ∈ rest, q.invoiceId = invoiceId → q.createdAt < n.createdAt) :
    findByInvoiceId (n :: rest) invoiceId = some n := by
  unfold findByInvoiceId
  have hp : (n.invoiceId == invoiceId) = true := by simp [hn]
  have hfil : List.filter (fun p => p.invoiceId == invoiceId) (n :: rest)
      = n :: rest.filter (fun p => p.invoiceId == invoiceId) := by
    simp [List.filter_cons, hp]
  rw [hfil, List.foldl_cons]
  exact foldl_moreRecent_const _ n (by
    intro q hq
    have hq2 := List.mem_filter.mp hq
    exact hrest q hq2.1 (by simpa using hq2.2))

/-- The invariant of claim C3's first half: every invoice row's status is
one of the three lifecycle strings. -/
def statusesOk (st : SysState) : Prop :=
  ∀ inv ∈ st.invoices, inv.status = "draft" ∨ inv.status = "submitted" ∨
    inv.status = "approved"

/-- One operation preserves the status-value invariant. -/
lemma statusesOk_applyOp (st : SysState) (op : Op) (h : statusesOk st) :
    statusesOk (applyOp st op) := by
  cases op with
  | newVendor v =>
    intro inv hmem
    exact h inv hmem
  | create v a d dd y m n =>
    by_cases hc : st.vendors.contains v = true
    · intro inv hmem
      simp only [applyOp, apiCreateInvoice, hc, if_true] at hmem
      rcases List.mem_append.mp hmem with hmem | hmem
      · exact h inv hmem
      · left
        simp only [List.mem_singleton] at hmem
        subst hmem
        rfl
    · intro inv hmem
      simp only [applyOp, apiCreateInvoice, hc] at hmem
      exact h inv (by simpa using hmem)
  | submit i dc pr br now =>
    cases hf : findInvoice st i with
    | none =>
      intro inv hmem
      simp only [applyOp, apiSubmitInvoice, hf] at hmem
      exact h inv hmem
    | some found =>
      intro inv hmem
      simp only [applyOp, apiSubmitInvoice, hf] at hmem
      rcases List.mem_map.mp hmem with ⟨orig, horig, hrw⟩
      by_cases hid : (orig.id == i) = true
      · rw [if_pos hid] at hrw
        subst hrw
        right; left; rfl
      · rw [if_neg hid] at hrw
        subst hrw
        exact h orig horig
  | processPay i r s pn cn now =>
    cases hf : findInvoice st i with
    | none =>
      intro inv hmem
      simp only [applyOp, apiPaymentsProcess, hf] at hmem
      exact h inv hmem
    | some found =>
      cases r with
      | false =>
        intro inv hmem
        simp only [applyOp, apiPaymentsProcess, hf] at hmem
        exact h inv hmem
      | true =>
        intro inv hmem
        simp only [applyOp, apiPaymentsProcess, hf, processPayment] at hmem
        rcases List.mem_map.mp hmem with ⟨orig, horig, hrw⟩
        by_cases hid : (orig.id == i) = true
        · rw [if_pos hid] at hrw
          subst hrw
          right; right; rfl
        · rw [if_neg hid] at hrw
          subst hrw
          exact h orig horig

/-- Folding any operation sequence preserves the status-value invariant. -/
lemma statusesOk_foldl (ops : List Op) :
    ∀ st, statusesOk st → statusesOk (ops.foldl applyOp st) := by
  induction ops with
  | nil => intro st h; exact h
  | cons op rest ih =>
    intro st h
    exact ih (applyOp st op) (statusesOk_applyOp st op h)

/-- The invariant of claim C8's second half: a payment row carries a
confirmation number exactly when its status is `completed`. -/
def paymentsConfOk (st : SysState) : Prop :=
  ∀ p ∈ st.payments, p.confirmationNumber.isSome = (p.status == "completed")

/-- One operation preserves the confirmation-iff-completed invariant. -/
lemma paymentsConfOk_applyOp (st : SysState) (op : Op) (h : paymentsConfOk st) :
    paymentsConfOk (applyOp st op) := by
  cases op with
  | newVendor v =>
    intro p hmem
    exact h p hmem
  | create v a d dd y m n =>
    intro p hmem
    by_cases hc : st.vendors.contains v = true
    · simp only [applyOp, apiCreateInvoice, hc, if_true] at hmem
      exact h p hmem
    · simp only [applyOp, apiCreateInvoice, hc] at hmem
      exact h p (by simpa using hmem)
  | submit i dc pr br now =>
    intro p hmem
    cases hf : findInvoice st i with
    | none =>
      simp only [applyOp, apiSubmitInvoice, hf] at hmem
      exact h p hmem
    | some found =>
      simp only [applyOp, apiSubmitInvoice, hf] at hmem
      exact h p hmem
  | processPay i r s pn cn now =>
    intro p hmem
    cases hf : findInvoice st i with
    | none =>
      simp only [applyOp, apiPaymentsProcess, hf] at hmem
      exact h p hmem
    | some found =>
      cases r with
      | false =>
        simp only [applyOp, apiPaymentsProcess, hf] at hmem
        exact h p hmem
      | true =>
        simp only [applyOp, apiPaymentsProcess, hf, processPayment] at hmem
        rcases List.mem_cons.mp hmem with hmem | hmem
        · subst hmem
          cases s <;> rfl
        · exact h p hmem

/-- Folding any operation sequence preserves the
confirmation-iff-completed invariant. -/
lemma paymentsConfOk_foldl (ops : List Op) :
    ∀ st, paymentsConfOk st → paymentsConfOk (ops.foldl applyOp st) := by
  induction ops with
  | nil => intro st h; exact h
  | cons op rest ih =>
    intro st h
    exact ih (applyOp st op) (paymentsConfOk_applyOp st op h)

/-- Full behaviour of the submit route on an existing invoice: it never
checks the current status; it answers `success: true` with both recorded
validation outcomes, rewrites the invoice row with the `submitted`
stamps, appends exactly one audit entry recording both outcomes, and
leaves payments and vendors untouched. -/
lemma apiSubmitInvoice_spec (st : SysState) (invoiceId : Nat) (inv : Invoice)
    (docCall : Option DocVal) (payReachable budgetRandom : Bool) (now : Nat)
    (hfind : findInvoice st invoiceId = some inv) :
    (apiSubmitInvoice st invoiceId docCall payReachable budgetRandom now).1
      = .ok { success := true
              invoiceId := invoiceId
              documentValidation := recordedDocVal docCall
              paymentValidation :=
                recordedPayVal st.payments invoiceId inv.amount payReachable budgetRandom }
    ∧ findInvoice (apiSubmitInvoice st invoiceId docCall payReachable budgetRandom now).2
        invoiceId = some (submitStamp now inv)
    ∧ (apiSubmitInvoice st invoiceId docCall payReachable budgetRandom now).2.audit
        = st.audit ++ [⟨"invoice", invoiceId, "submitted",
            .invoiceSubmitted (recordedDocVal docCall)
              (recordedPayVal st.payments invoiceId inv.amount payReachable budgetRandom)⟩]
    ∧ (apiSubmitInvoice st invoiceId docCall payReachable budgetRandom now).2.payments
        = st.payments
    ∧ (apiSubmitInvoice st invoiceId docCall payReachable budgetRandom now).2.vendors
        = st.vendors := by
  have h2 := find?_map_update st.invoices invoiceId (submitStamp now) (fun i => rfl) inv hfind
  refine ⟨?_, ?_, ?_, ?_, ?_⟩
  · simp only [apiSubmitInvoice, hfind]
  · simp only [apiSubmitInvoice, hfind]
    exact h2
  · simp only [apiSubmitInvoice, hfind]
  · simp only [apiSubmitInvoice, hfind]
  · simp only [apiSubmitInvoice, hfind]

/-- Full behaviour of the gateway payment route on an existing invoice.
When the payment-service call returns (`reachable = true`), whatever the
settlement outcome, the service's response is relayed, a payment row is
written by the service, and the invoice row is rewritten with the
`approved` stamps.  When the call fails at transport level the route
answers 500 and writes nothing. -/
lemma apiPaymentsProcess_spec (st : SysState) (invoiceId : Nat) (inv : Invoice)
    (success : Bool) (pn cn : String) (now : Nat)
    (hfind : findInvoice st invoiceId = some inv) :
    (apiPaymentsProcess st invoiceId true success pn cn now).1
      = .ok (processPayment st invoiceId inv.amount inv.invoiceNumber success pn cn now).1
    ∧ findInvoice (apiPaymentsProcess st invoiceId true success pn cn now).2 invoiceId
        = some (approveStamp now inv)
    ∧ (apiPaymentsProcess st invoiceId true success pn cn now).2.payments
        = (processPayment st invoiceId inv.amount inv.invoiceNumber success pn cn now).2.payments
    ∧ (apiPaymentsProcess st invoiceId true success pn cn now).2.audit
        = (processPayment st invoiceId inv.amount inv.invoiceNumber success pn cn now).2.audit
    ∧ apiPaymentsProcess st invoiceId false success pn cn now = (.serviceError, st) := by
  have h2 := find?_map_update st.invoices invoiceId (approveStamp now) (fun i => rfl) inv hfind
  refine ⟨?_, ?_, ?_, ?_, ?_⟩
  · simp [apiPaymentsProcess, hfind]
  · simp only [apiPaymentsProcess, hfind, if_true, eq_self_iff_true]
    exact h2
  · simp [apiPaymentsProcess, hfind]
  · simp [apiPaymentsProcess, hfind]
  · simp [apiPaymentsProcess, hfind]

/-!
## Claim theorems
-/

/-- C3 counterexample: the lifecycle can regress.  After create and a
processed payment the invoice is `approved`; one more submit call moves
it back to `submitted`, against the order draft < submitted < approved. -/
theorem c3_counterexample :
    (runOps [.newVendor 1,
             .create 1 100 "paper" none 2026 123456 1,
             .processPay 1 true true "PAY-1" "CONF-1" 5]).invoices.map Invoice.status
      = ["approved"]
    ∧ (runOps [.newVendor 1,
               .create 1 100 "paper" none 2026 123456 1,
               .processPay 1 true true "PAY-1" "CONF-1" 5,
               .submit 1 none false false 7]).invoices.map Invoice.status
      = ["submitted"] := by
  decide

/-- C3 (amended): along every operation sequence the status of every
invoice row stays within the three lifecycle strings; the monotonicity
half of the claim is false (see the counterexample): the submit route
rewrites any existing invoice — even an approved one — to `submitted`. -/
theorem c3_status_values (ops : List Op) (inv : Invoice)
    (hmem : inv ∈ (runOps ops).invoices) :
    inv.status = "draft" ∨ inv.status = "submitted" ∨ inv.status = "approved" := by
  have h0 : statusesOk initState := by
    intro i hi
    simp [initState] at hi
  exact statusesOk_foldl ops initState h0 inv hmem

/-- C3 witness: the invariant evaluated on a concretely created invoice. -/
theorem c3_witness :
    (Invoice.mk 1 "INV-2026-123456" 1 100 "paper" none "draft" none none none).status = "draft"
    ∨ (Invoice.mk 1 "INV-2026-123456" 1 100 "paper" none "draft" none none none).status
        = "submitted"
    ∨ (Invoice.mk 1 "INV-2026-123456" 1 100 "paper" none "draft" none none none).status
        = "approved" :=
  c3_status_values [.newVendor 1, .create 1 100 "paper" none 2026 123456 1]
    (Invoice.mk 1 "INV-2026-123456" 1 100 "paper" none "draft" none none none) (by decide)

/-- C4 counterexample: submitting an already-approved invoice does not
fail with InvalidStateTransition and does not leave it unchanged — the
call succeeds and rewrites the row to `submitted` with fresh stamps. -/
theorem c4_counterexample :
    (apiSubmitInvoice (exState "approved" []) 1 (some ⟨true, none⟩) false false 9).1
      = .ok { success := true, invoiceId := 1,
              documentValidation := ⟨true, none⟩,
              paymentValidation := .unavailable }
    ∧ (apiSubmitInvoice (exState "approved" []) 1 (some ⟨true, none⟩) false false 9).2.invoices
      = [{ exInvoice "approved" with
            status := "submitted", submittedAt := some 9, updatedAt := some 9 }] := by
  decide

/-- C4 (amended): the submit route has no state guard: on an existing
invoice of any non-draft status it succeeds with `success: true` and
rewrites the invoice to `submitted`; no InvalidStateTransition error
exists in the code. -/
theorem c4_no_state_guard (st : SysState) (invoiceId : Nat) (inv : Invoice)
    (docCall : Option DocVal) (payReachable budgetRandom : Bool) (now : Nat)
    (hfind : findInvoice st invoiceId = some inv)
    (hnotdraft : inv.status ≠ "draft") :
    (apiSubmitInvoice st invoiceId docCall payReachable budgetRandom now).1
      = .ok { success := true
              invoiceId := invoiceId
              documentValidation := recordedDocVal docCall
              paymentValidation :=
                recordedPayVal st.payments invoiceId inv.amount payReachable budgetRandom }
    ∧ findInvoice (apiSubmitInvoice st invoiceId docCall payReachable budgetRandom now).2
        invoiceId = some (submitStamp now inv)
    ∧ (submitStamp now inv).status = "submitted" := by
  have h := apiSubmitInvoice_spec st invoiceId inv docCall payReachable budgetRandom now hfind
  exact ⟨h.1, h.2.1, rfl⟩

/-- C4 witness: the amended claim evaluated on an approved invoice. -/
theorem c4_witness :
    (apiSubmitInvoice (exState "approved" []) 1 none false false 9).1
      = .ok { success := true
              invoiceId := 1
              documentValidation := recordedDocVal none
              paymentValidation :=
                recordedPayVal (exState "approved" []).payments 1
                  (exInvoice "approved").amount false false }
    ∧ findInvoice (apiSubmitInvoice (exState "approved" []) 1 none false false 9).2 1
        = some (submitStamp 9 (exInvoice "approved"))
    ∧ (submitStamp 9 (exInvoice "approved")).status = "submitted" :=
  c4_no_state_guard (exState "approved" []) 1 (exInvoice "approved") none false false 9
    (by decide) (by decide)

/-- C5 (confirmed): on a draft invoice the submit route advances the
status to `submitted` and stamps `submitted_at`, for every outcome of
the document and payment validation calls — including both authorities
unavailable — and appends exactly one audit entry recording both
recorded validation outcomes. -/
theorem c5_submit_draft_always_advances (st : SysState) (invoiceId : Nat)
    (inv : Invoice) (docCall : Option DocVal) (payReachable budgetRandom : Bool)
    (now : Nat) (hfind : findInvoice st invoiceId = some inv)
    (hdraft : inv.status = "draft") :
    (apiSubmitInvoice st invoiceId docCall payReachable budgetRandom now).1
      = .ok { success := true
              invoiceId := invoiceId
              documentValidation := recordedDocVal docCall
              paymentValidation :=
                recordedPayVal st.payments invoiceId inv.amount payReachable budgetRandom }
    ∧ findInvoice (apiSubmitInvoice st invoiceId docCall payReachable budgetRandom now).2
        invoiceId = some (submitStamp now inv)
    ∧ (submitStamp now inv).status = "submitted"
    ∧ (submitStamp now inv).submittedAt = some now
    ∧ (apiSubmitInvoice st invoiceId docCall payReachable budgetRandom now).2.audit
        = st.audit ++ [⟨"invoice", invoiceId, "submitted",
            .invoiceSubmitted (recordedDocVal docCall)
              (recordedPayVal st.payments invoiceId inv.amount payReachable budgetRandom)⟩] := by
  have h := apiSubmitInvoice_spec st invoiceId inv docCall payReachable budgetRandom now hfind
  exact ⟨h.1, h.2.1, rfl, rfl, h.2.2.1⟩

/-- C5 witness: a concrete draft invoice submitted while both authority
calls fail. -/
theorem c5_witness :
    (apiSubmitInvoice (exState "draft" []) 1 none false false 7).1
      = .ok { success := true
              invoiceId := 1
              documentValidation := recordedDocVal none
              paymentValidation :=
                recordedPayVal (exState "draft" []).payments 1
                  (exInvoice "draft").amount false false }
    ∧ findInvoice (apiSubmitInvoice (exState "draft" []) 1 none false false 7).2 1
        = some (submitStamp 7 (exInvoice "draft"))
    ∧ (submitStamp 7 (exInvoice "draft")).status = "submitted"
    ∧ (submitStamp 7 (exInvoice "draft")).submittedAt = some 7
    ∧ (apiSubmitInvoice (exState "draft" []) 1 none false false 7).2.audit
        = (exState "draft" []).audit ++ [⟨"invoice", 1, "submitted",
            .invoiceSubmitted (recordedDocVal none)
              (recordedPayVal (exState "draft" []).payments 1
                (exInvoice "draft").amount false false)⟩] :=
  c5_submit_draft_always_advances (exState "draft" []) 1 (exInvoice "draft")
    none false false 7 (by decide) (by decide)

/-- C6 counterexample: when the document-authority call errors, the
outcome recorded and returned for it is `valid: true` with a warning —
not an `Unavailable` outcome distinct from Valid, contrary to the claim
that the recorded outcome is never Valid. -/
theorem c6_counterexample :
    (apiSubmitInvoice (exState "draft" []) 1 none false false 9).1
      = .ok { success := true, invoiceId := 1,
              documentValidation := ⟨true, some "Document service unavailable"⟩,
              paymentValidation := .unavailable }
    ∧ (recordedDocVal none).valid = true
    ∧ PayRecord.validFlag .unavailable = true := by
  decide

/-- C6 (amended): an errored or timed-out authority call never aborts
the submission — no exception propagates and the invoice still moves to
`submitted` — but the recorded outcome is the fallback object whose
`valid` field is `true`, with the unavailability visible only in a
warning string. -/
theorem c6_fallback_records_valid (st : SysState) (invoiceId : Nat) (inv : Invoice)
    (now : Nat) (hfind : findInvoice st invoiceId = some inv) :
    (apiSubmitInvoice st invoiceId none false false now).1
      = .ok { success := true, invoiceId := invoiceId,
              documentValidation := ⟨true, some "Document service unavailable"⟩,
              paymentValidation := .unavailable }
    ∧ (recordedDocVal none).valid = true
    ∧ (recordedDocVal none).warning = some "Document service unavailable"
    ∧ PayRecord.validFlag .unavailable = true
    ∧ PayRecord.warningField .unavailable = some "Payment service unavailable"
    ∧ findInvoice (apiSubmitInvoice st invoiceId none false false now).2 invoiceId
        = some (submitStamp now inv) := by
  have h := apiSubmitInvoice_spec st invoiceId inv none false false now hfind
  exact ⟨h.1, rfl, rfl, rfl, rfl, h.2.1⟩

/-- C6 witness: the amended claim evaluated on a concrete state. -/
theorem c6_witness :
    (apiSubmitInvoice (exState "draft" []) 1 none false false 11).1
      = .ok { success := true, invoiceId := 1,
              documentValidation := ⟨true, some "Document service unavailable"⟩,
              paymentValidation := .unavailable }
    ∧ (recordedDocVal none).valid = true
    ∧ (recordedDocVal none).warning = some "Document service unavailable"
    ∧ PayRecord.validFlag .unavailable = true
    ∧ PayRecord.warningField .unavailable = some "Payment service unavailable"
    ∧ findInvoice (apiSubmitInvoice (exState "draft" []) 1 none false false 11).2 1
        = some (submitStamp 11 (exInvoice "draft")) :=
  c6_fallback_records_valid (exState "draft" []) 1 (exInvoice "draft") 11 (by decide)

/-- C8 (confirmed): a failed settlement still persists a payment row
(status `failed`, no confirmation code) together with an audit entry;
and along every operation sequence, every persisted payment row carries
a confirmation code exactly when its status is `completed`. -/
theorem c8_failed_payment_persisted :
    (∀ (st : SysState) (invoiceId : Nat) (amount : ℚ) (invoiceNumber pn cn : String)
        (now : Nat),
      (processPayment st invoiceId amount invoiceNumber false pn cn now).1.success = false
      ∧ (processPayment st invoiceId amount invoiceNumber false pn cn now).1.confirmationNumber
          = none
      ∧ (processPayment st invoiceId amount invoiceNumber false pn cn now).2.payments
          = Payment.mk st.payments.length pn invoiceId amount "ACH" "failed"
              (some now) none now :: st.payments
      ∧ (processPayment st invoiceId amount invoiceNumber false pn cn now).2.audit
          = st.audit ++ [⟨"payment", st.payments.length, "processed",
              .paymentProcessed invoiceNumber amount "failed" cn⟩])
    ∧ (∀ ops : List Op, ∀ p ∈ (runOps ops).payments,
        p.confirmationNumber.isSome = (p.status == "completed")) := by
  constructor
  · intro st invoiceId amount invoiceNumber pn cn now
    exact ⟨rfl, rfl, rfl, rfl⟩
  · intro ops p hp
    have h0 : paymentsConfOk initState := by
      intro q hq
      simp [initState] at hq
    exact paymentsConfOk_foldl ops initState h0 p hp

/-- C8 witness: the invariant evaluated on a concretely processed
payment row. -/
theorem c8_witness :
    (Payment.mk 0 "PAY-1" 1 100 "ACH" "completed" (some 9) (some "CONF-1") 9).confirmationNumber.isSome
      = ((Payment.mk 0 "PAY-1" 1 100 "ACH" "completed" (some 9) (some "CONF-1") 9).status
          == "completed") :=
  c8_failed_payment_persisted.2
    [.newVendor 1, .create 1 100 "paper" none 2026 123456 1,
     .processPay 1 true true "PAY-1" "CONF-1" 9]
    (Payment.mk 0 "PAY-1" 1 100 "ACH" "completed" (some 9) (some "CONF-1") 9) (by decide)

/-- C1 counterexample: invoice 1 already has a completed payment, yet the
payment route answers success — no DuplicatePayment — and persists a
second completed payment row for the same invoice. -/
theorem c1_counterexample :
    (apiPaymentsProcess (exState "approved" [exCompletedPayment])
        1 true true "PAY-20260103-CCCC3333" "CONF-444455556666" 9).1
      = .ok { success := true, paymentId := 1,
              paymentNumber := "PAY-20260103-CCCC3333", invoiceId := 1,
              amount := 100, status := "completed",
              confirmationNumber := some "CONF-444455556666", error := none }
    ∧ ((apiPaymentsProcess (exState "approved" [exCompletedPayment])
          1 true true "PAY-20260103-CCCC3333" "CONF-444455556666" 9).2.payments.filter
        (fun p => p.invoiceId == 1 && p.status == "completed")).length = 2 := by
  decide

/-- C1 (amended): the payment-processing operation has no duplicate
guard: even when a completed payment already exists for the invoice, the
call succeeds and a new payment row is written (completed when the
settlement draw succeeds), so several completed payment rows per invoice
are possible; the only duplicate detection in the code is the
informational `no_duplicate` check inside `validatePayment`. -/
theorem c1_no_duplicate_guard (st : SysState) (invoiceId : Nat) (inv : Invoice)
    (pn cn : String) (now : Nat) (p : Payment)
    (hfind : findInvoice st invoiceId = some inv)
    (hp : p ∈ st.payments) (hpi : p.invoiceId = invoiceId)
    (hpc : p.status = "completed") :
    (apiPaymentsProcess st invoiceId true true pn cn now).1
      = .ok { success := true, paymentId := st.payments.length, paymentNumber := pn,
              invoiceId := invoiceId, amount := inv.amount, status := "completed",
              confirmationNumber := some cn, error := none }
    ∧ (apiPaymentsProcess st invoiceId true true pn cn now).2.payments
      = Payment.mk st.payments.length pn invoiceId inv.amount "ACH" "completed"
          (some now) (some cn) now :: st.payments := by
  have h := apiPaymentsProcess_spec st invoiceId inv true pn cn now hfind
  refine ⟨?_, ?_⟩
  · rw [h.1]
    rfl
  · rw [h.2.2.1]
    rfl

/-- C1 witness: the amended claim evaluated at the counterexample
state. -/
theorem c1_witness :
    (apiPaymentsProcess (exState "approved" [exCompletedPayment])
        1 true true "PAY-2" "CONF-2" 9).1
      = .ok { success := true,
              paymentId := (exState "approved" [exCompletedPayment]).payments.length,
              paymentNumber := "PAY-2", invoiceId := 1,
              amount := (exInvoice "approved").amount, status := "completed",
              confirmationNumber := some "CONF-2", error := none }
    ∧ (apiPaymentsProcess (exState "approved" [exCompletedPayment])
          1 true true "PAY-2" "CONF-2" 9).2.payments
      = Payment.mk (exState "approved" [exCompletedPayment]).payments.length "PAY-2" 1
          (exInvoice "approved").amount "ACH" "completed" (some 9) (some "CONF-2") 9
          :: (exState "approved" [exCompletedPayment]).payments :=
  c1_no_duplicate_guard (exState "approved" [exCompletedPayment]) 1
    (exInvoice "approved") "PAY-2" "CONF-2" 9 exCompletedPayment
    (by decide) (by decide) (by decide) (by decide)

/-- C2 counterexample: the payment service reports settlement failure
(`success: false` in a 200 response), yet the gateway still rewrites the
invoice to `approved` and stamps `approved_at`, contrary to the claim
that on processor failure the invoice is left unchanged. -/
theorem c2_counterexample :
    (apiPaymentsProcess (exState "submitted" [])
        1 true false "PAY-20260103-CCCC3333" "CONF-444455556666" 9).1
      = .ok { success := false, paymentId := 0,
              paymentNumber := "PAY-20260103-CCCC3333", invoiceId := 1,
              amount := 100, status := "failed", confirmationNumber := none,
              error := some "Payment processing failed - please retry" }
    ∧ (apiPaymentsProcess (exState "submitted" [])
          1 true false "PAY-20260103-CCCC3333" "CONF-444455556666" 9).2.invoices
      = [{ exInvoice "submitted" with status := "approved", approvedAt := some 9 }] := by
  decide

/-- C2 (amended): the gateway marks the invoice `approved` and stamps
`approved_at` whenever the payment-service HTTP call returns a response
— regardless of the `success` flag it carries, settlement failure
included; only a transport-level failure of that call leaves the state
unchanged, surfaced as a 500 error. -/
theorem c2_approval_ignores_success_flag (st : SysState) (invoiceId : Nat)
    (inv : Invoice) (success : Bool) (pn cn : String) (now : Nat)
    (hfind : findInvoice st invoiceId = some inv) :
    ((apiPaymentsProcess st invoiceId true success pn cn now).1
        = .ok (processPayment st invoiceId inv.amount inv.invoiceNumber success pn cn now).1
      ∧ (processPayment st invoiceId inv.amount inv.invoiceNumber success pn cn now).1.success
        = success
      ∧ findInvoice (apiPaymentsProcess st invoiceId true success pn cn now).2 invoiceId
        = some (approveStamp now inv)
      ∧ (approveStamp now inv).status = "approved"
      ∧ (approveStamp now inv).approvedAt = some now)
    ∧ apiPaymentsProcess st invoiceId false success pn cn now = (.serviceError, st) := by
  have h := apiPaymentsProcess_spec st invoiceId inv success pn cn now hfind
  exact ⟨⟨h.1, rfl, h.2.1, rfl, rfl⟩, h.2.2.2.2⟩

/-- C2 witness: the amended claim evaluated on a concrete submitted
invoice with a failing settlement draw. -/
theorem c2_witness :
    ((apiPaymentsProcess (exState "submitted" []) 1 true false "PAY-2" "CONF-2" 9).1
        = .ok (processPayment (exState "submitted" []) 1 (exInvoice "submitted").amount
            (exInvoice "submitted").invoiceNumber false "PAY-2" "CONF-2" 9).1
      ∧ (processPayment (exState "submitted" []) 1 (exInvoice "submitted").amount
            (exInvoice "submitted").invoiceNumber false "PAY-2" "CONF-2" 9).1.success
        = false
      ∧ findInvoice (apiPaymentsProcess (exState "submitted" []) 1 true false
            "PAY-2" "CONF-2" 9).2 1
        = some (approveStamp 9 (exInvoice "submitted"))
      ∧ (approveStamp 9 (exInvoice "submitted")).status = "approved"
      ∧ (approveStamp 9 (exInvoice "submitted")).approvedAt = some 9)
    ∧ apiPaymentsProcess (exState "submitted" []) 1 false false "PAY-2" "CONF-2" 9
      = (.serviceError, exState "submitted" []) :=
  c2_approval_ignores_success_flag (exState "submitted" []) 1 (exInvoice "submitted")
    false "PAY-2" "CONF-2" 9 (by decide)

/-- C7 counterexample: a create request with amount -5 for an existing
vendor is not rejected with InvalidInput — the invoice is created and
persisted in `draft` with the negative amount. -/
theorem c7_counterexample :
    (apiCreateInvoice { vendors := [1], invoices := [], payments := [], audit := [] }
        1 (-5) "negative amount" none 2026 123456 1).1
      = .created (Invoice.mk 1 "INV-2026-123456" 1 (-5) "negative amount" none
          "draft" none none none)
    ∧ (apiCreateInvoice { vendors := [1], invoices := [], payments := [], audit := [] }
          1 (-5) "negative amount" none 2026 123456 1).2.invoices
      = [Invoice.mk 1 "INV-2026-123456" 1 (-5) "negative amount" none
          "draft" none none none] := by
  decide

/-- C7 (amended): the create route performs no input validation of its
own.  Any amount — non-positive included — is accepted when the vendor
exists: an invoice number is generated, the invoice is persisted in
`draft` with one audit entry, and it is returned.  A missing vendor is
rejected only by the store's foreign-key constraint, surfacing as a 500
store error — not InvalidInput — with no row written. -/
theorem c7_create_has_no_validation (st : SysState) (vendorId : Nat) (amount : ℚ)
    (description : String) (dueDate : Option Nat) (year millis newId : Nat) :
    (st.vendors.contains vendorId = true →
      apiCreateInvoice st vendorId amount description dueDate year millis newId
        = (.created (Invoice.mk newId (mkInvoiceNumber year millis) vendorId amount
              description dueDate "draft" none none none),
           { st with
              invoices := st.invoices ++ [Invoice.mk newId (mkInvoiceNumber year millis)
                vendorId amount description dueDate "draft" none none none]
              audit := st.audit ++ [⟨"invoice", newId, "created",
                .invoiceCreated (mkInvoiceNumber year millis)⟩] }))
    ∧ (st.vendors.contains vendorId = false →
      apiCreateInvoice st vendorId amount description dueDate year millis newId
        = (.storeError, st)) := by
  constructor
  · intro hc
    simp only [apiCreateInvoice, hc, eq_self_iff_true, if_true]
  · intro hc
    simp only [apiCreateInvoice, hc, Bool.false_eq_true, if_false]

/-- C7 witness: both branches of the amended claim evaluated concretely —
a negative-amount create that succeeds against vendor 1, and a create
against a missing vendor that fails at the store with nothing written. -/
theorem c7_witness :
    (apiCreateInvoice { vendors := [1], invoices := [], payments := [], audit := [] }
        1 (-5) "negative amount" none 2026 123456 1
      = (.created (Invoice.mk 1 (mkInvoiceNumber 2026 123456) 1 (-5) "negative amount"
            none "draft" none none none),
         { vendors := [1]
           invoices := [] ++ [Invoice.mk 1 (mkInvoiceNumber 2026 123456) 1 (-5)
             "negative amount" none "draft" none none none]
           payments := []
           audit := [] ++ [⟨"invoice", 1, "created",
             .invoiceCreated (mkInvoiceNumber 2026 123456)⟩] }))
    ∧ (apiCreateInvoice { vendors := [1], invoices := [], payments := [], audit := [] }
        77 100 "missing vendor" none 2026 123456 2
      = (.storeError,
         { vendors := [1], invoices := [], payments := [], audit := [] })) :=
  ⟨(c7_create_has_no_validation
      { vendors := [1], invoices := [], payments := [], audit := [] }
      1 (-5) "negative amount" none 2026 123456 1).1 (by decide),
   (c7_create_has_no_validation
      { vendors := [1], invoices := [], payments := [], audit := [] }
      77 100 "missing vendor" none 2026 123456 2).2 (by decide)⟩

/-- C9 (confirmed): duplicate detection looks only at the single most
recent payment row of the invoice.  With an older completed payment in
the table but a newer non-completed one on top, `findByInvoiceId`
returns the newer row, the `no_duplicate` check passes, and no
already-paid issue is reported. -/
theorem c9_checks_only_most_recent (newest : Payment) (rest : List Payment)
    (invoiceId : Nat) (amount : ℚ) (budgetRandom : Bool) (older : Payment)
    (hn : newest.invoiceId = invoiceId)
    (hnewest : ∀ q ∈ rest, q.invoiceId = invoiceId → q.createdAt < newest.createdAt)
    (hnc : newest.status ≠ "completed")
    (holder : older ∈ rest) (holderInv : older.invoiceId = invoiceId)
    (holderC : older.status = "completed") :
    findByInvoiceId (newest :: rest) invoiceId = some newest
    ∧ ("no_duplicate", true)
        ∈ (validatePayment (newest :: rest) invoiceId amount budgetRandom).validations
    ∧ ∀ is ∈ (validatePayment (newest :: rest) invoiceId amount budgetRandom).issues,
        is.message ≠ "Invoice has already been paid" := by
  have hfind := findByInvoiceId_cons_newest newest rest invoiceId hn hnewest
  have hbeq : (newest.status == "completed") = false := beq_eq_false_iff_ne.mpr hnc
  refine ⟨hfind, ?_, ?_⟩
  · simp [validatePayment, hfind, hbeq]
  · intro is hmem
    simp only [validatePayment, hfind, hbeq, Bool.not_false, if_true,
      List.append_nil] at hmem
    rcases List.mem_append.mp hmem with h | h
    · split at h
      · simp at h
      · simp only [List.mem_singleton] at h
        subst h
        decide
    · split at h
      · simp at h
      · simp only [List.mem_singleton] at h
        subst h
        decide

/-- C9 witness: the property evaluated on a newer failed payment on top
of an older completed one for the same invoice. -/
theorem c9_witness :
    findByInvoiceId [exFailedPayment, exCompletedPayment] 1 = some exFailedPayment
    ∧ ("no_duplicate", true)
        ∈ (validatePayment [exFailedPayment, exCompletedPayment] 1 100 false).validations
    ∧ ∀ is ∈ (validatePayment [exFailedPayment, exCompletedPayment] 1 100 false).issues,
        is.message ≠ "Invoice has already been paid" :=
  c9_checks_only_most_recent exFailedPayment [exCompletedPayment] 1 100 false
    exCompletedPayment (by decide) (by decide) (by decide) (by decide) (by decide)
    (by decide)

/-- C10 (confirmed): the top-level `valid` flag of payment validation is
exactly "amount in (0, 1000000] and the most recent payment of the
invoice, if any, is not completed"; the randomized budget check does not
occur in that formula — so it never changes the flag — and the one issue
it can add is warning-typed. -/
theorem c10_valid_flag (ps : List Payment) (invoiceId : Nat) (amount : ℚ)
    (budgetRandom : Bool) :
    ((validatePayment ps invoiceId amount budgetRandom).valid
      = (decide (0 < amount) && decide (amount ≤ 1000000) &&
         (match findByInvoiceId ps invoiceId with
          | none => true
          | some p => !(p.status == "completed"))))
    ∧ ∀ is ∈ (validatePayment ps invoiceId amount budgetRandom).issues,
        is.message = "Amount exceeds $500,000 - requires additional approval" →
          is.type = "warning" := by
  constructor
  · cases hf : findByInvoiceId ps invoiceId with
    | none =>
      cases h1 : decide (0 < amount) <;> cases h2 : decide (amount ≤ 1000000) <;>
        cases h3 : decide (amount ≤ 500000) <;> cases budgetRandom <;>
          simp [validatePayment, hf, h1, h2, h3]
    | some p =>
      cases hs : (p.status == "completed") <;>
        cases h1 : decide (0 < amount) <;> cases h2 : decide (amount ≤ 1000000) <;>
          cases h3 : decide (amount ≤ 500000) <;> cases budgetRandom <;>
            simp [validatePayment, hf, h1, h2, h3, hs]
  · intro is hmem
    simp only [validatePayment] at hmem
    rcases List.mem_append.mp hmem with h | h
    · rcases List.mem_append.mp h with h | h
      · split at h
        · simp at h
        · simp only [List.mem_singleton] at h
          subst h
          intro hmsg
          exact absurd hmsg (by decide)
      · split at h
        · simp at h
        · simp only [List.mem_singleton] at h
          subst h
          intro hmsg
          exact absurd hmsg (by decide)
    · split at h
      · simp at h
      · simp only [List.mem_singleton] at h
        subst h
        intro hmsg
        rfl

/-- C10 witness: the flag formula and the warning-typing evaluated at a
concrete over-budget amount with a forced negative budget draw. -/
theorem c10_witness :
    ((validatePayment [] 1 600000 false).valid
      = (decide ((0 : ℚ) < 600000) && decide ((600000 : ℚ) ≤ 1000000) &&
         (match findByInvoiceId [] 1 with
          | none => true
          | some p => !(p.status == "completed"))))
    ∧ (Issue.mk "warning" "Amount exceeds $500,000 - requires additional approval").type
      = "warning" :=
  ⟨(c10_valid_flag [] 1 600000 false).1,
   (c10_valid_flag [] 1 600000 false).2
     (Issue.mk "warning" "Amount exceeds $500,000 - requires additional approval")
     (by decide) (by decide)⟩
